import Mathlib

/-!
Verification of the announcements router of the Mergington High School API
(src/backend/routers/announcements.py).

The router is embedded shallowly:

* A MongoDB document of the announcements collection becomes a `Doc`; the
  collection itself, together with the teachers collection and the counter
  used to generate fresh object ids, becomes a `DB` value that every
  operation threads explicitly.
* `datetime` values become `Int` instants.  The external collaborators that
  the file calls but does not define -- `datetime.fromisoformat`
  (`fromiso : String → Option Int`, `none` modelling a raised `ValueError`),
  `datetime.isoformat` (`isoString : Int → String`) and the `bson.ObjectId`
  constructor (`parseOid : String → Option Nat`, `none` modelling a raised
  exception) -- are parameters of the definitions.
* A raised `HTTPException` becomes the `Except.error` of an `HErr` carrying
  the status code and the detail string; the unparsed `now` query parameter
  of the active listing raises a bare `ValueError`, modelled by
  `Except.error ()`.
* Route handlers become functions from their query parameters and the
  current `DB` to an `Except` of the serialized response (paired with the
  new `DB` for the mutating handlers).
-/

deriving instance DecidableEq for Except

/-- Model of `HTTPException(status_code, detail)`. -/
structure HErr where
  status : Nat
  detail : String
deriving Repr, DecidableEq

/-- A stored announcement document.  `_id` is the store-assigned object id;
MongoDB keeps `_id` unique in a collection. -/
structure Doc where
  _id : Nat
  message : String
  start_date : Option Int
  end_date : Int
  created_at : Int
  updated_at : Int
deriving Repr, DecidableEq

/-- The JSON-ready projection produced by the handlers: the object id as a
string, the date fields as ISO strings, `start_date` possibly null. -/
structure Ser where
  id : String
  message : String
  start_date : Option String
  end_date : String
  created_at : String
  updated_at : String
deriving Repr, DecidableEq

/-- The database state: the announcements collection (in natural order), the
identifiers of the teachers collection, and the next fresh object id. -/
structure DB where
  announcements : List Doc
  teachers : List String
  nextId : Nat
deriving Repr, DecidableEq

/-- Python `str.strip()` with no argument: drop leading and trailing
whitespace.  Defined structurally over the character list so that closed
instances evaluate inside the kernel (`String.trim` agrees but does not
reduce there). -/
def strip (s : String) : String :=
  String.mk
    (((s.data.dropWhile Char.isWhitespace).reverse.dropWhile
        Char.isWhitespace).reverse)

/-- Embedding of `_parse_datetime`: `None` and the empty string give `None`; otherwise
`datetime.fromisoformat` is tried, and a parse failure becomes a 400. -/
def parse_datetime (fromiso : String → Option Int) :
    Option String → Except HErr (Option Int)
  | none => .ok none
  | some s =>
      if s = "" then .ok none
      else
        match fromiso s with
        | some d => .ok (some d)
        | none => .error ⟨400, "Invalid datetime format: " ++ s⟩

/-- Embedding of `_require_teacher`: a missing or empty username (Python truthiness) is a
401 before any lookup; a username matching no teacher document is a 401. -/
def require_teacher (db : DB) : Option String → Except HErr Unit
  | none => .error ⟨401, "Authentication required"⟩
  | some u =>
      if u = "" then .error ⟨401, "Authentication required"⟩
      else if db.teachers.contains u then .ok ()
      else .error ⟨401, "Invalid teacher credentials"⟩

/-- The Mongo filter of the active listing: `end_date` at least the
reference instant, and `start_date` either at most the reference instant,
or missing, or null (the two latter cases are `none` here). -/
def isActive (ref : Int) (d : Doc) : Bool :=
  decide (ref ≤ d.end_date) &&
    (match d.start_date with
     | some s => decide (s ≤ ref)
     | none => true)

/-- Comparison used by `sort("end_date", 1)`. -/
def ascEnd (a b : Doc) : Bool := decide (a.end_date ≤ b.end_date)

/-- Comparison used by `sort("end_date", -1)`. -/
def descEnd (a b : Doc) : Bool := decide (b.end_date ≤ a.end_date)

/-- Insert a document into a list at the first position where it is `le`
the next element. -/
def insertLe (le : Doc → Doc → Bool) (d : Doc) : List Doc → List Doc
  | [] => [d]
  | x :: xs => if le d x then d :: x :: xs else x :: insertLe le d xs

/-- Insertion sort; models the cursor sort of the store on the `end_date`
key. -/
def sortLe (le : Doc → Doc → Bool) : List Doc → List Doc
  | [] => []
  | x :: xs => insertLe le x (sortLe le xs)

/-- Embedding of `doc["id"] = str(doc.pop("_id"))` followed by `_serialize_dates`. -/
def serialize (isoString : Int → String) (d : Doc) : Ser :=
  ⟨toString d._id, d.message, d.start_date.map isoString,
   isoString d.end_date, isoString d.created_at, isoString d.updated_at⟩

/-- Embedding of `datetime.fromisoformat(now) if now else datetime.utcnow()`: by Python
truthiness a missing or empty `now` falls back to the current instant, and
only a non-empty `now` reaches the parser, whose failure is an uncaught
`ValueError` (`Except.error ()`). -/
def referenceTime (fromiso : String → Option Int) (now? : Option String)
    (utcnow : Int) : Except Unit Int :=
  match now? with
  | none => .ok utcnow
  | some s =>
      if s = "" then .ok utcnow
      else
        match fromiso s with
        | some t => .ok t
        | none => .error ()

/-- The documents returned by the active listing, before serialization:
filter by the active query, sort ascending by `end_date`. -/
def activeDocs (ref : Int) (db : DB) : List Doc :=
  sortLe ascEnd (db.announcements.filter (isActive ref))

/-- Handler of `GET /announcements/active`. -/
def get_active_announcements (fromiso : String → Option Int)
    (isoString : Int → String) (now? : Option String) (utcnow : Int)
    (db : DB) : Except Unit (List Ser) :=
  match referenceTime fromiso now? utcnow with
  | .error e => .error e
  | .ok ref => .ok ((activeDocs ref db).map (serialize isoString))

/-- Handler of `GET /announcements`: every document, sorted descending by `end_date`. -/
def list_announcements (isoString : Int → String) (db : DB) : List Ser :=
  (sortLe descEnd db.announcements).map (serialize isoString)

/-- Handler of `POST /announcements`.  Authentication first, then the trimmed-message
check, then `end_date` (which must parse to a present value), then
`start_date`; the document is inserted with a fresh id and read back with
`find_one`; the unreachable `None` read-back would be an uncaught
`TypeError`, modelled as a 500. -/
def create_announcement (fromiso : String → Option Int)
    (isoString : Int → String) (message end_date : String)
    (start_date teacher_username : Option String) (utcnow : Int)
    (db : DB) : Except HErr (Ser × DB) :=
  match require_teacher db teacher_username with
  | .error e => .error e
  | .ok _ =>
      if strip message = "" then .error ⟨400, "Message is required"⟩
      else
        match parse_datetime fromiso (some end_date) with
        | .error e => .error e
        | .ok none => .error ⟨400, "end_date is required"⟩
        | .ok (some end_dt) =>
            match parse_datetime fromiso start_date with
            | .error e => .error e
            | .ok start_dt =>
                let doc : Doc :=
                  ⟨db.nextId, strip message, start_dt, end_dt, utcnow, utcnow⟩
                let db' : DB :=
                  ⟨db.announcements ++ [doc], db.teachers, db.nextId + 1⟩
                match db'.announcements.find? (fun d => d._id == db.nextId) with
                | some created => .ok (serialize isoString created, db')
                | none => .error ⟨500, "Internal Server Error"⟩

/-- The `$set` document built by the update handler: `updated_at` always,
the other fields only when provided; a provided `start_date` may be set to
null (`some none`). -/
structure UpdateSet where
  updated_at : Int
  message : Option String
  start_date : Option (Option Int)
  end_date : Option Int
deriving Repr, DecidableEq

/-- Apply a `$set` document to a stored document. -/
def applySet (u : UpdateSet) (d : Doc) : Doc :=
  { d with
    updated_at := u.updated_at
    message := u.message.getD d.message
    start_date := u.start_date.getD d.start_date
    end_date := u.end_date.getD d.end_date }

/-- The `message` block of the update handler. -/
def setMessage (u : UpdateSet) : Option String → Except HErr UpdateSet
  | none => .ok u
  | some m =>
      if strip m = "" then .error ⟨400, "Message cannot be empty"⟩
      else .ok { u with message := some (strip m) }

/-- The `start_date` block of the update handler: a provided value is parsed
(empty giving null) and stored, null included. -/
def setStart (fromiso : String → Option Int) (u : UpdateSet) :
    Option String → Except HErr UpdateSet
  | none => .ok u
  | some s =>
      match parse_datetime fromiso (some s) with
      | .error e => .error e
      | .ok v => .ok { u with start_date := some v }

/-- The `end_date` block of the update handler: a provided value must parse
to a present instant; parsing to null is a 400. -/
def setEnd (fromiso : String → Option Int) (u : UpdateSet) :
    Option String → Except HErr UpdateSet
  | none => .ok u
  | some s =>
      match parse_datetime fromiso (some s) with
      | .error e => .error e
      | .ok none => .error ⟨400, "end_date cannot be null"⟩
      | .ok (some v) => .ok { u with end_date := some v }

/-- Embedding of `update_one` on the filter by id: rewrite the first matching document. -/
def updateFirst (oid : Nat) (u : UpdateSet) : List Doc → List Doc
  | [] => []
  | d :: ds => if d._id == oid then applySet u d :: ds else d :: updateFirst oid u ds

/-- Handler of `PUT /announcements/` followed by the id.  Authentication, then the field validations in
source order (message, start, end), then id parsing (which the source does
only when building the `update_one` call), then the matched-count check, the
in-place update and the read-back. -/
def update_announcement (fromiso : String → Option Int)
    (isoString : Int → String) (parseOid : String → Option Nat)
    (announcement_id : String)
    (message end_date start_date teacher_username : Option String)
    (utcnow : Int) (db : DB) : Except HErr (Ser × DB) :=
  match require_teacher db teacher_username with
  | .error e => .error e
  | .ok _ =>
      match setMessage ⟨utcnow, none, none, none⟩ message with
      | .error e => .error e
      | .ok u1 =>
          match setStart fromiso u1 start_date with
          | .error e => .error e
          | .ok u2 =>
              match setEnd fromiso u2 end_date with
              | .error e => .error e
              | .ok u3 =>
                  match parseOid announcement_id with
                  | none => .error ⟨400, "Invalid announcement id"⟩
                  | some oid =>
                      if db.announcements.any (fun d => d._id == oid) then
                        let anns := updateFirst oid u3 db.announcements
                        let db' : DB := ⟨anns, db.teachers, db.nextId⟩
                        match anns.find? (fun d => d._id == oid) with
                        | some doc => .ok (serialize isoString doc, db')
                        | none => .error ⟨500, "Internal Server Error"⟩
                      else .error ⟨404, "Announcement not found"⟩

/-- Embedding of `delete_one` on the filter by id: drop the first matching document. -/
def deleteFirst (oid : Nat) : List Doc → List Doc
  | [] => []
  | d :: ds => if d._id == oid then ds else d :: deleteFirst oid ds

/-- Handler of `DELETE /announcements/` followed by the id.  Authentication, then id parsing, then the
deleted-count check; the confirmation body is its message string. -/
def delete_announcement (parseOid : String → Option Nat)
    (announcement_id : String) (teacher_username : Option String)
    (db : DB) : Except HErr (String × DB) :=
  match require_teacher db teacher_username with
  | .error e => .error e
  | .ok _ =>
      match parseOid announcement_id with
      | none => .error ⟨400, "Invalid announcement id"⟩
      | some oid =>
          if db.announcements.any (fun d => d._id == oid) then
            .ok ("Announcement deleted",
                 ⟨deleteFirst oid db.announcements, db.teachers, db.nextId⟩)
          else .error ⟨404, "Announcement not found"⟩

/-!
Concrete instances of the external collaborators, used to evaluate the
handlers on closed inputs: a finite table standing for `fromisoformat` (it
rejects the empty string, as the real parser does), decimal rendering for
`isoformat`, and a finite table standing for the `ObjectId` constructor.
-/

def fromisoC (s : String) : Option Int :=
  if s = "2025-06-01T00:00:00" then some 1
  else if s = "2025-06-03T00:00:00" then some 3
  else if s = "2025-06-05T00:00:00" then some 5
  else if s = "2025-06-10T00:00:00" then some 10
  else if s = "2025-06-11T00:00:00" then some 11
  else if s = "2025-06-20T00:00:00" then some 20
  else none

def isoStringC (t : Int) : String := toString t

def parseOidC (s : String) : Option Nat :=
  if s = "0" then some 0
  else if s = "1" then some 1
  else if s = "2" then some 2
  else none

/-- A sample state: two announcements and one teacher. -/
def dbW : DB :=
  ⟨[⟨0, "Final exams start Monday", none, 10, 0, 0⟩,
    ⟨1, "Field trip", some 3, 5, 0, 0⟩],
   ["jwilson"], 2⟩

/-! General lemmas about the insertion sort and the collection helpers. -/

theorem mem_insertLe (le : Doc → Doc → Bool) (d a : Doc) : ∀ l : List Doc,
    (a ∈ insertLe le d l ↔ a = d ∨ a ∈ l)
  | [] => by simp [insertLe]
  | x :: xs => by
      simp only [insertLe]
      split
      · simp [or_comm, or_left_comm]
      · simp [List.mem_cons, mem_insertLe le d a xs]
        tauto

theorem mem_sortLe (le : Doc → Doc → Bool) (a : Doc) : ∀ l : List Doc,
    a ∈ sortLe le l ↔ a ∈ l
  | [] => Iff.rfl
  | x :: xs => by
      simp [sortLe, mem_insertLe, mem_sortLe le a xs]

theorem pairwise_insertLe (le : Doc → Doc → Bool)
    (htrans : ∀ a b c, le a b = true → le b c = true → le a c = true)
    (htotal : ∀ a b, le a b = true ∨ le b a = true)
    (d : Doc) : ∀ l : List Doc,
    List.Pairwise (fun a b => le a b = true) l →
    List.Pairwise (fun a b => le a b = true) (insertLe le d l)
  | [], _ => by simp [insertLe]
  | x :: xs, h => by
      rcases List.pairwise_cons.mp h with ⟨hx, hxs⟩
      simp only [insertLe]
      split
      · rename_i hle
        refine List.pairwise_cons.mpr ⟨?_, h⟩
        intro y hy
        rcases List.mem_cons.mp hy with rfl | hy
        · exact hle
        · exact htrans d x y hle (hx y hy)
      · rename_i hle
        refine List.pairwise_cons.mpr
          ⟨?_, pairwise_insertLe le htrans htotal d xs hxs⟩
        intro y hy
        rcases (mem_insertLe le d y xs).mp hy with rfl | hy
        · rcases htotal x y with h1 | h1
          · exact h1
          · exact absurd h1 hle
        · exact hx y hy

theorem pairwise_sortLe (le : Doc → Doc → Bool)
    (htrans : ∀ a b c, le a b = true → le b c = true → le a c = true)
    (htotal : ∀ a b, le a b = true ∨ le b a = true) :
    ∀ l : List Doc, List.Pairwise (fun a b => le a b = true) (sortLe le l)
  | [] => List.Pairwise.nil
  | x :: xs =>
      pairwise_insertLe le htrans htotal x (sortLe le xs)
        (pairwise_sortLe le htrans htotal xs)

theorem ascEnd_trans :
    ∀ a b c, ascEnd a b = true → ascEnd b c = true → ascEnd a c = true := by
  intro a b c h1 h2
  simp [ascEnd] at *
  omega

theorem ascEnd_total : ∀ a b, ascEnd a b = true ∨ ascEnd b a = true := by
  intro a b
  simp [ascEnd]
  omega

theorem descEnd_trans :
    ∀ a b c, descEnd a b = true → descEnd b c = true → descEnd a c = true := by
  intro a b c h1 h2
  simp [descEnd] at *
  omega

theorem descEnd_total : ∀ a b, descEnd a b = true ∨ descEnd b a = true := by
  intro a b
  simp [descEnd]
  omega

theorem isActive_iff (T : Int) (d : Doc) :
    isActive T d = true ↔
      T ≤ d.end_date ∧
        (d.start_date = none ∨ ∃ s, d.start_date = some s ∧ s ≤ T) := by
  cases h : d.start_date with
  | none => simp [isActive, h]
  | some s => simp [isActive, h]

theorem applySet_id (u : UpdateSet) (d : Doc) : (applySet u d)._id = d._id := rfl

theorem any_of_find? (p : Doc → Bool) (l : List Doc) (doc : Doc)
    (h : l.find? p = some doc) : l.any p = true :=
  List.any_eq_true.mpr ⟨doc, List.mem_of_find?_eq_some h, List.find?_some h⟩

theorem find?_updateFirst (oid : Nat) (u : UpdateSet) :
    ∀ l : List Doc, ∀ doc : Doc,
    l.find? (fun d => d._id == oid) = some doc →
    (updateFirst oid u l).find? (fun d => d._id == oid) = some (applySet u doc)
  | [], doc => by simp
  | x :: xs, doc => by
      intro h
      by_cases hx : (x._id == oid) = true
      · have hx1 : (fun d : Doc => d._id == oid) x = true := hx
        rw [List.find?_cons_of_pos xs hx1] at h
        injection h with h
        subst h
        have hax : (fun d : Doc => d._id == oid) (applySet u x) = true := by
          show ((applySet u x)._id == oid) = true
          rw [applySet_id]
          exact hx
        simp only [updateFirst, hx, if_true]
        exact List.find?_cons_of_pos xs hax
      · have hx1 : ¬ (fun d : Doc => d._id == oid) x = true := hx
        rw [List.find?_cons_of_neg xs hx1] at h
        have ih := find?_updateFirst oid u xs doc h
        simp only [updateFirst, Bool.not_eq_true] at hx ⊢
        simp only [hx, Bool.false_eq_true, if_false]
        rw [List.find?_cons_of_neg _ (by simp [hx])]
        exact ih

theorem find?_fresh (n : Nat) (doc : Doc) (hdoc : doc._id = n) :
    ∀ l : List Doc, (∀ d ∈ l, d._id ≠ n) →
    (l ++ [doc]).find? (fun d => d._id == n) = some doc
  | [] => by
      intro _
      simp [List.find?, hdoc]
  | x :: xs => by
      intro h
      have hx : ¬ (fun d : Doc => d._id == n) x = true := by
        simp only [beq_iff_eq]
        exact h x (List.mem_cons_self x xs)
      have ih := find?_fresh n doc hdoc xs (fun d hd => h d (List.mem_cons_of_mem x hd))
      rw [List.cons_append, List.find?_cons_of_neg (xs ++ [doc]) hx]
      exact ih

/-! Helper lemmas about the handlers themselves. -/

/-- The status of the error of a handler result, if any. -/
def errStatus {α : Type} : Except HErr α → Option Nat
  | .error e => some e.status
  | .ok _ => none

theorem require_teacher_ok (anns : List Doc) (ts : List String) (n : Nat)
    (u : String) (h0 : u ≠ "") (h1 : u ∈ ts) :
    require_teacher ⟨anns, ts, n⟩ (some u) = .ok () := by
  simp [require_teacher, h0]
  exact h1

theorem require_teacher_some_401 (db : DB) (u : String)
    (hu : u ∉ db.teachers) :
    ∃ d, require_teacher db (some u) = .error ⟨401, d⟩ := by
  by_cases h0 : u = ""
  · exact ⟨"Authentication required", by simp [require_teacher, h0]⟩
  · refine ⟨"Invalid teacher credentials", ?_⟩
    simp [require_teacher, h0]
    exact hu

theorem require_teacher_401 (db : DB) (u? : Option String)
    (hu : u? = none ∨ ∃ u, u? = some u ∧ u ∉ db.teachers) :
    ∃ d, require_teacher db u? = .error ⟨401, d⟩ := by
  rcases hu with rfl | ⟨u, rfl, hu⟩
  · exact ⟨"Authentication required", rfl⟩
  · exact require_teacher_some_401 db u hu

theorem create_of_auth_error (fromiso : String → Option Int)
    (isoString : Int → String) (msg e : String) (st? u? : Option String)
    (utcnow : Int) (db : DB) (err : HErr)
    (h : require_teacher db u? = .error err) :
    create_announcement fromiso isoString msg e st? u? utcnow db = .error err := by
  simp [create_announcement, h]

theorem update_of_auth_error (fromiso : String → Option Int)
    (isoString : Int → String) (parseOid : String → Option Nat) (id : String)
    (m? e? s? u? : Option String) (utcnow : Int) (db : DB) (err : HErr)
    (h : require_teacher db u? = .error err) :
    update_announcement fromiso isoString parseOid id m? e? s? u? utcnow db
      = .error err := by
  simp [update_announcement, h]

theorem delete_of_auth_error (parseOid : String → Option Nat) (id : String)
    (u? : Option String) (db : DB) (err : HErr)
    (h : require_teacher db u? = .error err) :
    delete_announcement parseOid id u? db = .error err := by
  simp [delete_announcement, h]

theorem parse_datetime_error_400 (fromiso : String → Option Int)
    (v : Option String) (err : HErr)
    (h : parse_datetime fromiso v = .error err) : err.status = 400 := by
  cases v with
  | none => simp [parse_datetime] at h
  | some s =>
      by_cases h0 : s = ""
      · simp [parse_datetime, h0] at h
      · cases hf : fromiso s with
        | some d => simp [parse_datetime, h0, hf] at h
        | none =>
            simp [parse_datetime, h0, hf] at h
            rw [← h]

theorem setMessage_error_400 (u : UpdateSet) (m? : Option String) (err : HErr)
    (h : setMessage u m? = .error err) : err.status = 400 := by
  cases m? with
  | none => simp [setMessage] at h
  | some m =>
      by_cases h0 : strip m = ""
      · simp [setMessage, h0] at h
        rw [← h]
      · simp [setMessage, h0] at h

theorem setStart_error_400 (fromiso : String → Option Int) (u : UpdateSet)
    (s? : Option String) (err : HErr)
    (h : setStart fromiso u s? = .error err) : err.status = 400 := by
  cases s? with
  | none => simp [setStart] at h
  | some s =>
      cases hp : parse_datetime fromiso (some s) with
      | error e =>
          have : err = e := by simp [setStart, hp] at h; exact h.symm
          subst this
          exact parse_datetime_error_400 fromiso (some s) err hp
      | ok v => simp [setStart, hp] at h

theorem setEnd_some_not_ok (fromiso : String → Option Int) (u : UpdateSet)
    (e : String)
    (hend : ∀ v, parse_datetime fromiso (some e) ≠ Except.ok (some v)) :
    ∃ err, setEnd fromiso u (some e) = .error err ∧ err.status = 400 := by
  cases hp : parse_datetime fromiso (some e) with
  | error er =>
      refine ⟨er, by simp [setEnd, hp], ?_⟩
      exact parse_datetime_error_400 fromiso (some e) er hp
  | ok v =>
      cases v with
      | none => exact ⟨⟨400, "end_date cannot be null"⟩, by simp [setEnd, hp], rfl⟩
      | some t => exact absurd hp (hend t)

/-- Success path of the create handler: with an authenticated teacher, a
message non-empty after trimming, and well-parsed dates, the document is
appended with the fresh id and read back. -/
theorem create_ok (fromiso : String → Option Int) (isoString : Int → String)
    (msg e : String) (st? u? : Option String) (utcnow : Int) (db : DB)
    (ev : Int) (sv : Option Int)
    (hauth : require_teacher db u? = .ok ())
    (hmsg : strip msg ≠ "")
    (hend : parse_datetime fromiso (some e) = .ok (some ev))
    (hstart : parse_datetime fromiso st? = .ok sv)
    (hfresh : ∀ d ∈ db.announcements, d._id ≠ db.nextId) :
    create_announcement fromiso isoString msg e st? u? utcnow db
      = .ok (serialize isoString ⟨db.nextId, strip msg, sv, ev, utcnow, utcnow⟩,
             ⟨db.announcements ++ [⟨db.nextId, strip msg, sv, ev, utcnow, utcnow⟩],
              db.teachers, db.nextId + 1⟩) := by
  have hf := find?_fresh db.nextId ⟨db.nextId, strip msg, sv, ev, utcnow, utcnow⟩
    rfl db.announcements hfresh
  simp [create_announcement, hauth, hmsg, hend, hstart, hf]

/-- Success path of the update handler: with an authenticated teacher and
every provided field validated, the first document matching the id is
rewritten by the accumulated set document and read back. -/
theorem update_ok (fromiso : String → Option Int) (isoString : Int → String)
    (parseOid : String → Option Nat) (id : String)
    (m? e? s? u? : Option String) (utcnow : Int) (db : DB)
    (u1 u2 u3 : UpdateSet) (oid : Nat) (doc : Doc)
    (hauth : require_teacher db u? = .ok ())
    (h1 : setMessage ⟨utcnow, none, none, none⟩ m? = .ok u1)
    (h2 : setStart fromiso u1 s? = .ok u2)
    (h3 : setEnd fromiso u2 e? = .ok u3)
    (hoid : parseOid id = some oid)
    (hfind : db.announcements.find? (fun d => d._id == oid) = some doc) :
    update_announcement fromiso isoString parseOid id m? e? s? u? utcnow db
      = .ok (serialize isoString (applySet u3 doc),
             ⟨updateFirst oid u3 db.announcements, db.teachers, db.nextId⟩) := by
  have hany : db.announcements.any (fun d => d._id == oid) = true :=
    any_of_find? _ _ _ hfind
  have hfind2 := find?_updateFirst oid u3 db.announcements doc hfind
  simp [update_announcement, hauth, h1, h2, h3, hoid, hany, hfind2]

/-! Claim C1. -/

/-- The specified behaviour of the active listing at a reference instant
`T` obtained by parsing the `now` parameter `t`: the response is the
serialization of `activeDocs T`, membership in `activeDocs T` is exactly the
active predicate of the spec, and the documents are ordered by `end_date`
ascending. -/
def ActiveListingSpec (fromiso : String → Option Int)
    (isoString : Int → String) (t : String) (T utcnow : Int) (db : DB) : Prop :=
  get_active_announcements fromiso isoString (some t) utcnow db
      = .ok ((activeDocs T db).map (serialize isoString))
  ∧ (∀ d : Doc, d ∈ activeDocs T db ↔
      d ∈ db.announcements ∧ d.end_date ≥ T ∧
        (d.start_date = none ∨ ∃ s, d.start_date = some s ∧ s ≤ T))
  ∧ List.Pairwise (fun a b : Doc => a.end_date ≤ b.end_date) (activeDocs T db)

/-- C1: for every stored announcement A and reference time T, A appears in
the active listing at T iff A.end_date is at least T and A.start_date is
absent or at most T, and the result is ordered by end_date ascending. -/
theorem active_listing_spec (fromiso : String → Option Int)
    (isoString : Int → String) (t : String) (T utcnow : Int) (db : DB)
    (ht : t ≠ "") (hp : fromiso t = some T) :
    ActiveListingSpec fromiso isoString t T utcnow db := by
  refine ⟨?_, ?_, ?_⟩
  · simp [get_active_announcements, referenceTime, ht, hp]
  · intro d
    simp [activeDocs, mem_sortLe, List.mem_filter, isActive_iff, ge_iff_le,
      and_assoc]
  · have h := pairwise_sortLe ascEnd ascEnd_trans ascEnd_total
      (db.announcements.filter (isActive T))
    exact h.imp (fun hab => by simpa [ascEnd] using hab)

theorem active_listing_spec_witness :
    ("2025-06-05T00:00:00" ≠ "" ∧ fromisoC "2025-06-05T00:00:00" = some 5)
    ∧ ActiveListingSpec fromisoC isoStringC "2025-06-05T00:00:00" 5 0 dbW :=
  ⟨⟨by decide, by decide⟩,
   active_listing_spec fromisoC isoStringC "2025-06-05T00:00:00" 5 0 dbW
     (by decide) (by decide)⟩

/-! Claim C3. -/

/-- C3 counterexample: a present-but-empty `now` parameter is not parseable
as ISO-8601 (here the parser accepts no string at all), yet the request does
not fail: by Python truthiness the handler falls back to the current instant
and answers 200. -/
theorem now_param_empty_counterexample :
    (fun _ : String => (none : Option Int)) "" = none
    ∧ get_active_announcements (fun _ => none) isoStringC (some "") 0 dbW
        = .ok [⟨"0", "Final exams start Monday", none, "10", "0", "0"⟩] :=
  ⟨rfl, by decide⟩

/-- The reference-time behaviour of the active listing: a missing `now`
uses the current instant; a present, non-empty, unparseable `now` raises an
unhandled parse failure (not a 400); a present-but-empty `now` also uses
the current instant. -/
def ReferenceTimeSpec (fromiso : String → Option Int)
    (isoString : Int → String) (utcnow : Int) (db : DB) : Prop :=
  get_active_announcements fromiso isoString none utcnow db
      = .ok ((activeDocs utcnow db).map (serialize isoString))
  ∧ (∀ s, s ≠ "" → fromiso s = none →
      get_active_announcements fromiso isoString (some s) utcnow db = .error ())
  ∧ get_active_announcements fromiso isoString (some "") utcnow db
      = .ok ((activeDocs utcnow db).map (serialize isoString))

/-- C3 (amended): when `now` is absent or empty the reference time is the
current UTC instant; when `now` is present, non-empty and not parseable the
request fails with an unhandled parse failure, not a 400. -/
theorem reference_time_spec (fromiso : String → Option Int)
    (isoString : Int → String) (utcnow : Int) (db : DB) :
    ReferenceTimeSpec fromiso isoString utcnow db := by
  refine ⟨rfl, ?_, rfl⟩
  intro s hs hnone
  simp [get_active_announcements, referenceTime, hs, hnone]

theorem reference_time_spec_witness :
    ReferenceTimeSpec fromisoC isoStringC 0 dbW
    ∧ ("bogus" ≠ "" ∧ fromisoC "bogus" = none)
    ∧ get_active_announcements fromisoC isoStringC (some "bogus") 0 dbW
        = .error () :=
  ⟨reference_time_spec fromisoC isoStringC 0 dbW,
   ⟨by decide, by decide⟩,
   (reference_time_spec fromisoC isoStringC 0 dbW).2.1 "bogus"
     (by decide) (by decide)⟩

/-! Claim C7. -/

/-- C7: the full listing returns every stored announcement, ordered by
end_date descending, with the same serialization as the active listing. -/
theorem list_all_every_desc (isoString : Int → String) (db : DB) :
    list_announcements isoString db
      = (sortLe descEnd db.announcements).map (serialize isoString)
    ∧ (∀ d : Doc, d ∈ sortLe descEnd db.announcements ↔ d ∈ db.announcements)
    ∧ List.Pairwise (fun a b : Doc => b.end_date ≤ a.end_date)
        (sortLe descEnd db.announcements) := by
  refine ⟨rfl, fun d => mem_sortLe descEnd d db.announcements, ?_⟩
  have h := pairwise_sortLe descEnd descEnd_trans descEnd_total db.announcements
  exact h.imp (fun hab => by simpa [descEnd] using hab)

/-! Claim C6. -/

/-- C6: for create, update and delete, a missing teacher_username fails with
401 "Authentication required", and a present username matching no teacher
record fails with status 401. -/
theorem auth_required_401 (fromiso : String → Option Int)
    (isoString : Int → String) (parseOid : String → Option Nat)
    (db : DB) (msg e id : String) (st m? e? s? : Option String)
    (utcnow : Int) :
    (create_announcement fromiso isoString msg e st none utcnow db
        = .error ⟨401, "Authentication required"⟩
      ∧ update_announcement fromiso isoString parseOid id m? e? s? none utcnow db
        = .error ⟨401, "Authentication required"⟩
      ∧ delete_announcement parseOid id none db
        = .error ⟨401, "Authentication required"⟩)
    ∧ (∀ u, u ∉ db.teachers →
        (∃ d1, create_announcement fromiso isoString msg e st (some u) utcnow db
          = .error ⟨401, d1⟩)
        ∧ (∃ d2, update_announcement fromiso isoString parseOid id m? e? s?
            (some u) utcnow db = .error ⟨401, d2⟩)
        ∧ (∃ d3, delete_announcement parseOid id (some u) db
          = .error ⟨401, d3⟩)) := by
  constructor
  · exact ⟨rfl, rfl, rfl⟩
  · intro u hu
    obtain ⟨d, hd⟩ := require_teacher_some_401 db u hu
    exact ⟨⟨d, create_of_auth_error fromiso isoString msg e st (some u) utcnow db _ hd⟩,
           ⟨d, update_of_auth_error fromiso isoString parseOid id m? e? s? (some u) utcnow db _ hd⟩,
           ⟨d, delete_of_auth_error parseOid id (some u) db _ hd⟩⟩

theorem auth_required_401_witness :
    (create_announcement fromisoC isoStringC "Hello" "2025-06-10T00:00:00"
        none none 0 dbW = .error ⟨401, "Authentication required"⟩)
    ∧ ("mallory" ∉ dbW.teachers)
    ∧ (∃ d3, delete_announcement parseOidC "0" (some "mallory") dbW
        = .error ⟨401, d3⟩) :=
  ⟨(auth_required_401 fromisoC isoStringC parseOidC dbW "Hello"
      "2025-06-10T00:00:00" "0" none none none none 0).1.1,
   by decide,
   ((auth_required_401 fromisoC isoStringC parseOidC dbW "Hello"
      "2025-06-10T00:00:00" "0" none none none none 0).2 "mallory"
      (by decide)).2.2⟩

/-! Claim C10. -/

/-- C10: the authentication check runs before every other validation of
create, update and delete: whatever the remaining arguments are (a malformed
id, an empty message and bad dates included), a missing or unknown
teacher_username yields status 401, never 400. -/
theorem auth_checked_first (fromiso : String → Option Int)
    (isoString : Int → String) (parseOid : String → Option Nat)
    (db : DB) (msg e id : String) (st m? e? s? : Option String)
    (utcnow : Int) (u? : Option String)
    (hu : u? = none ∨ ∃ u, u? = some u ∧ u ∉ db.teachers) :
    errStatus (create_announcement fromiso isoString msg e st u? utcnow db)
        = some 401
    ∧ errStatus (update_announcement fromiso isoString parseOid id m? e? s?
        u? utcnow db) = some 401
    ∧ errStatus (delete_announcement parseOid id u? db) = some 401 := by
  obtain ⟨d, hd⟩ := require_teacher_401 db u? hu
  rw [create_of_auth_error fromiso isoString msg e st u? utcnow db _ hd,
    update_of_auth_error fromiso isoString parseOid id m? e? s? u? utcnow db _ hd,
    delete_of_auth_error parseOid id u? db _ hd]
  exact ⟨rfl, rfl, rfl⟩

theorem auth_checked_first_witness :
    ((none : Option String) = none
      ∨ ∃ u, (none : Option String) = some u ∧ u ∉ dbW.teachers)
    ∧ (errStatus (create_announcement fromisoC isoStringC "" "not-a-date"
          (some "also-bad") none 0 dbW) = some 401
       ∧ errStatus (update_announcement fromisoC isoStringC parseOidC
          "not-an-oid" (some "") (some "bad") (some "bad") none 0 dbW)
          = some 401
       ∧ errStatus (delete_announcement parseOidC "not-an-oid" none dbW)
          = some 401) :=
  ⟨Or.inl rfl,
   auth_checked_first fromisoC isoStringC parseOidC dbW "" "not-a-date"
     "not-an-oid" (some "also-bad") (some "") (some "bad") (some "bad") 0 none
     (Or.inl rfl)⟩

/-! Claim C5. -/

/-- The behaviour of an update that provides only `message`: the response
and the stored record keep `start_date`, `end_date` and `created_at` of the
old document, carry the trimmed new message, and have `updated_at` set to
the current instant. -/
def MessageOnlyUpdateSpec (fromiso : String → Option Int)
    (isoString : Int → String) (parseOid : String → Option Nat)
    (id m : String) (u? : Option String) (utcnow : Int) (db : DB)
    (oid : Nat) (doc : Doc) : Prop :=
  update_announcement fromiso isoString parseOid id (some m) none none
      u? utcnow db
    = .ok (serialize isoString
             ⟨doc._id, strip m, doc.start_date, doc.end_date,
              doc.created_at, utcnow⟩,
           ⟨updateFirst oid ⟨utcnow, some (strip m), none, none⟩ db.announcements,
            db.teachers, db.nextId⟩)
  ∧ (updateFirst oid ⟨utcnow, some (strip m), none, none⟩
        db.announcements).find? (fun d => d._id == oid)
      = some ⟨doc._id, strip m, doc.start_date, doc.end_date,
              doc.created_at, utcnow⟩

/-- C5: a successful update providing only `message` leaves the stored
start_date, end_date and created_at unchanged and refreshes updated_at to
the current UTC instant. -/
theorem update_message_only (fromiso : String → Option Int)
    (isoString : Int → String) (parseOid : String → Option Nat)
    (id m : String) (u? : Option String) (utcnow : Int) (db : DB)
    (oid : Nat) (doc : Doc)
    (hauth : require_teacher db u? = .ok ())
    (hm : strip m ≠ "")
    (hoid : parseOid id = some oid)
    (hfind : db.announcements.find? (fun d => d._id == oid) = some doc) :
    MessageOnlyUpdateSpec fromiso isoString parseOid id m u? utcnow db
      oid doc := by
  have h1 : setMessage ⟨utcnow, none, none, none⟩ (some m)
      = .ok ⟨utcnow, some (strip m), none, none⟩ := by
    simp [setMessage, hm]
  have hup := update_ok fromiso isoString parseOid id (some m) none none
    u? utcnow db ⟨utcnow, some (strip m), none, none⟩
    ⟨utcnow, some (strip m), none, none⟩ ⟨utcnow, some (strip m), none, none⟩
    oid doc hauth h1 rfl rfl hoid hfind
  have happ : applySet ⟨utcnow, some (strip m), none, none⟩ doc
      = ⟨doc._id, strip m, doc.start_date, doc.end_date,
         doc.created_at, utcnow⟩ := rfl
  constructor
  · rw [hup, happ]
  · have hf := find?_updateFirst oid ⟨utcnow, some (strip m), none, none⟩
      db.announcements doc hfind
    rw [hf, happ]

theorem update_message_only_witness :
    (require_teacher dbW (some "jwilson") = .ok ()
     ∧ strip "Updated note" ≠ ""
     ∧ parseOidC "1" = some 1
     ∧ dbW.announcements.find? (fun d => d._id == 1)
         = some ⟨1, "Field trip", some 3, 5, 0, 0⟩)
    ∧ MessageOnlyUpdateSpec fromisoC isoStringC parseOidC "1" "Updated note"
        (some "jwilson") 9 dbW 1 ⟨1, "Field trip", some 3, 5, 0, 0⟩ :=
  ⟨⟨by decide, by decide, by decide, by decide⟩,
   update_message_only fromisoC isoStringC parseOidC "1" "Updated note"
     (some "jwilson") 9 dbW 1 ⟨1, "Field trip", some 3, 5, 0, 0⟩
     (by decide) (by decide) (by decide) (by decide)⟩

/-! Claim C4. -/

theorem errEq400 (err : HErr) (h : err.status = 400) :
    err = ⟨400, err.detail⟩ := by
  cases err with
  | mk s d => rw [show s = 400 from h]

/-- The update rules for the two date fields: a provided `end_date` that
does not parse to a present instant makes the whole update fail with a 400,
while a provided-but-empty `start_date` clears the stored start_date to null
and the update proceeds. -/
def UpdateEndStartSpec (fromiso : String → Option Int)
    (isoString : Int → String) (parseOid : String → Option Nat)
    (id : String) (u? : Option String) (utcnow : Int) (db : DB) : Prop :=
  (∀ (m? s? : Option String) (e : String),
     (∀ v, parse_datetime fromiso (some e) ≠ Except.ok (some v)) →
     ∃ d, update_announcement fromiso isoString parseOid id m? (some e) s?
       u? utcnow db = .error ⟨400, d⟩)
  ∧ (∀ (oid : Nat) (doc : Doc), parseOid id = some oid →
       db.announcements.find? (fun d => d._id == oid) = some doc →
       update_announcement fromiso isoString parseOid id none none (some "")
           u? utcnow db
         = .ok (serialize isoString
                  ⟨doc._id, doc.message, none, doc.end_date,
                   doc.created_at, utcnow⟩,
                ⟨updateFirst oid ⟨utcnow, none, some none, none⟩
                   db.announcements, db.teachers, db.nextId⟩)
       ∧ (serialize isoString
            ⟨doc._id, doc.message, none, doc.end_date,
             doc.created_at, utcnow⟩).start_date = none)

/-- C4: in update, a provided `end_date` must parse to a present value or
the operation fails with a 400, while providing an empty `start_date`
clears the stored start_date and the operation proceeds. -/
theorem update_end_start_rules (fromiso : String → Option Int)
    (isoString : Int → String) (parseOid : String → Option Nat)
    (id : String) (u? : Option String) (utcnow : Int) (db : DB)
    (hauth : require_teacher db u? = .ok ()) :
    UpdateEndStartSpec fromiso isoString parseOid id u? utcnow db := by
  constructor
  · intro m? s? e hend
    cases h1 : setMessage ⟨utcnow, none, none, none⟩ m? with
    | error err =>
        have h4 := setMessage_error_400 _ _ _ h1
        refine ⟨err.detail, ?_⟩
        rw [← errEq400 err h4]
        simp [update_announcement, hauth, h1]
    | ok u1 =>
        cases h2 : setStart fromiso u1 s? with
        | error err =>
            have h4 := setStart_error_400 _ _ _ _ h2
            refine ⟨err.detail, ?_⟩
            rw [← errEq400 err h4]
            simp [update_announcement, hauth, h1, h2]
        | ok u2 =>
            obtain ⟨err, h3, h4⟩ := setEnd_some_not_ok fromiso u2 e hend
            refine ⟨err.detail, ?_⟩
            rw [← errEq400 err h4]
            simp [update_announcement, hauth, h1, h2, h3]
  · intro oid doc hoid hfind
    have h2 : setStart fromiso ⟨utcnow, none, none, none⟩ (some "")
        = .ok ⟨utcnow, none, some none, none⟩ := by
      simp [setStart, parse_datetime]
    have hup := update_ok fromiso isoString parseOid id none none (some "")
      u? utcnow db ⟨utcnow, none, none, none⟩ ⟨utcnow, none, some none, none⟩
      ⟨utcnow, none, some none, none⟩ oid doc hauth rfl h2 rfl hoid hfind
    have happ : applySet ⟨utcnow, none, some none, none⟩ doc
        = ⟨doc._id, doc.message, none, doc.end_date,
           doc.created_at, utcnow⟩ := rfl
    rw [hup, happ]
    exact ⟨rfl, rfl⟩

theorem update_end_start_rules_witness :
    require_teacher dbW (some "jwilson") = .ok ()
    ∧ UpdateEndStartSpec fromisoC isoStringC parseOidC "1" (some "jwilson")
        9 dbW :=
  ⟨by decide,
   update_end_start_rules fromisoC isoStringC parseOidC "1" (some "jwilson")
     9 dbW (by decide)⟩

/-! Claim C8. -/

/-- Success of create and update for a given pair of date strings: both
operations go through with no comparison between the parsed values. -/
def NoDateOrderCheckSpec (fromiso : String → Option Int)
    (isoString : Int → String) (parseOid : String → Option Nat)
    (id msg e s : String) (u? : Option String) (utcnow : Int)
    (db : DB) : Prop :=
  (∃ ser db', create_announcement fromiso isoString msg e (some s) u?
      utcnow db = .ok (ser, db'))
  ∧ (∀ (oid : Nat) (doc : Doc), parseOid id = some oid →
       db.announcements.find? (fun d => d._id == oid) = some doc →
       ∃ ser db', update_announcement fromiso isoString parseOid id
         (some msg) (some e) (some s) u? utcnow db = .ok (ser, db'))

/-- C8: no operation enforces start_date at most end_date: create and
update succeed for an authenticated teacher, a non-empty message and
parseable dates even when the parsed start_date is strictly greater than
the parsed end_date. -/
theorem no_start_le_end_validation (fromiso : String → Option Int)
    (isoString : Int → String) (parseOid : String → Option Nat)
    (id msg e s : String) (u? : Option String) (utcnow : Int) (db : DB)
    (ev sv : Int)
    (hauth : require_teacher db u? = .ok ())
    (hmsg : strip msg ≠ "")
    (hend : parse_datetime fromiso (some e) = .ok (some ev))
    (hstart : parse_datetime fromiso (some s) = .ok (some sv))
    (_hgt : ev < sv)
    (hfresh : ∀ d ∈ db.announcements, d._id ≠ db.nextId) :
    NoDateOrderCheckSpec fromiso isoString parseOid id msg e s u?
      utcnow db := by
  constructor
  · exact ⟨_, _, create_ok fromiso isoString msg e (some s) u? utcnow db
      ev (some sv) hauth hmsg hend hstart hfresh⟩
  · intro oid doc hoid hfind
    have h1 : setMessage ⟨utcnow, none, none, none⟩ (some msg)
        = .ok ⟨utcnow, some (strip msg), none, none⟩ := by
      simp [setMessage, hmsg]
    have h2 : setStart fromiso ⟨utcnow, some (strip msg), none, none⟩ (some s)
        = .ok ⟨utcnow, some (strip msg), some (some sv), none⟩ := by
      simp [setStart, hstart]
    have h3 : setEnd fromiso
        ⟨utcnow, some (strip msg), some (some sv), none⟩ (some e)
        = .ok ⟨utcnow, some (strip msg), some (some sv), some ev⟩ := by
      simp [setEnd, hend]
    exact ⟨_, _, update_ok fromiso isoString parseOid id (some msg) (some e)
      (some s) u? utcnow db _ _ _ oid doc hauth h1 h2 h3 hoid hfind⟩

theorem no_start_le_end_validation_witness :
    (require_teacher dbW (some "jwilson") = .ok ()
     ∧ strip "Hello" ≠ ""
     ∧ parse_datetime fromisoC (some "2025-06-05T00:00:00") = .ok (some 5)
     ∧ parse_datetime fromisoC (some "2025-06-20T00:00:00") = .ok (some 20)
     ∧ (5 : Int) < 20
     ∧ (∀ d ∈ dbW.announcements, d._id ≠ dbW.nextId))
    ∧ NoDateOrderCheckSpec fromisoC isoStringC parseOidC "1" "Hello"
        "2025-06-05T00:00:00" "2025-06-20T00:00:00" (some "jwilson")
        9 dbW :=
  ⟨⟨by decide, by decide, by decide, by decide, by decide, by decide⟩,
   no_start_le_end_validation fromisoC isoStringC parseOidC "1" "Hello"
     "2025-06-05T00:00:00" "2025-06-20T00:00:00" (some "jwilson") 9 dbW
     5 20 (by decide) (by decide) (by decide) (by decide) (by decide)
     (by decide)⟩

/-! Claim C2. -/

/-- C2 counterexample: create with a message carrying surrounding
whitespace succeeds, but the created record read back carries the trimmed
message, not the supplied one. -/
theorem create_roundtrip_counterexample :
    create_announcement fromisoC isoStringC " hi " "2025-06-10T00:00:00"
        none (some "jwilson") 7 dbW
      = .ok (⟨"2", "hi", none, "10", "7", "7"⟩,
             ⟨dbW.announcements ++ [⟨2, "hi", none, 10, 7, 7⟩],
              dbW.teachers, 3⟩)
    ∧ "hi" ≠ " hi " :=
  ⟨by decide, by decide⟩

/-- A successful create answers the stripped message, the parsed dates
rendered as ISO strings, and the fresh identifier as a string; reading the
created record back returns exactly the stored values. -/
def CreateRoundTripSpec (fromiso : String → Option Int)
    (isoString : Int → String) (msg e : String) (st? u? : Option String)
    (utcnow : Int) (db : DB) (ev : Int) (sv : Option Int) : Prop :=
  create_announcement fromiso isoString msg e st? u? utcnow db
    = .ok (⟨toString db.nextId, strip msg, sv.map isoString, isoString ev,
            isoString utcnow, isoString utcnow⟩,
           ⟨db.announcements ++ [⟨db.nextId, strip msg, sv, ev, utcnow, utcnow⟩],
            db.teachers, db.nextId + 1⟩)
  ∧ (db.announcements
       ++ ([⟨db.nextId, strip msg, sv, ev, utcnow, utcnow⟩] : List Doc)).find?
        (fun d => d._id == db.nextId)
      = some (⟨db.nextId, strip msg, sv, ev, utcnow, utcnow⟩ : Doc)

/-- C2 (amended): a successful create followed by a read-back of the created
record returns the supplied message stripped of surrounding whitespace
(hence the supplied message exactly when it has none), and the supplied
start_date and end_date exactly, up to ISO-8601 formatting of the dates. -/
theorem create_roundtrip (fromiso : String → Option Int)
    (isoString : Int → String) (msg e : String) (st? u? : Option String)
    (utcnow : Int) (db : DB) (ev : Int) (sv : Option Int)
    (hauth : require_teacher db u? = .ok ())
    (hmsg : strip msg ≠ "")
    (hend : parse_datetime fromiso (some e) = .ok (some ev))
    (hstart : parse_datetime fromiso st? = .ok sv)
    (hfresh : ∀ d ∈ db.announcements, d._id ≠ db.nextId) :
    CreateRoundTripSpec fromiso isoString msg e st? u? utcnow db ev sv := by
  constructor
  · have h := create_ok fromiso isoString msg e st? u? utcnow db ev sv
      hauth hmsg hend hstart hfresh
    rw [h]
    rfl
  · exact find?_fresh db.nextId
      ⟨db.nextId, strip msg, sv, ev, utcnow, utcnow⟩ rfl
      db.announcements hfresh

theorem create_roundtrip_witness :
    (require_teacher dbW (some "jwilson") = .ok ()
     ∧ strip "Final week" ≠ ""
     ∧ parse_datetime fromisoC (some "2025-06-10T00:00:00") = .ok (some 10)
     ∧ parse_datetime fromisoC (some "2025-06-01T00:00:00") = .ok (some 1)
     ∧ (∀ d ∈ dbW.announcements, d._id ≠ dbW.nextId))
    ∧ CreateRoundTripSpec fromisoC isoStringC "Final week"
        "2025-06-10T00:00:00" (some "2025-06-01T00:00:00") (some "jwilson")
        7 dbW 10 (some 1) :=
  ⟨⟨by decide, by decide, by decide, by decide, by decide⟩,
   create_roundtrip fromisoC isoStringC "Final week" "2025-06-10T00:00:00"
     (some "2025-06-01T00:00:00") (some "jwilson") 7 dbW 10 (some 1)
     (by decide) (by decide) (by decide) (by decide) (by decide)⟩

/-! Claim C9. -/

/-- C9 counterexample: a delete with a malformed identifier and no
teacher_username fails with 401 "Authentication required", not with the
400 "Invalid announcement id" the claim states for every such request. -/
theorem malformed_id_counterexample :
    parseOidC "not-an-oid" = none
    ∧ delete_announcement parseOidC "not-an-oid" none dbW
        = .error ⟨401, "Authentication required"⟩
    ∧ (401 : Nat) ≠ 400 :=
  ⟨by decide, by decide, by decide⟩

/-- Rejection of a malformed identifier: for an authenticated teacher (and,
for update, provided fields that pass validation), delete and update fail
with 400 "Invalid announcement id"; the result is the same for every
contents of the announcements collection, so no query reaches the store. -/
def MalformedIdSpec (fromiso : String → Option Int)
    (isoString : Int → String) (parseOid : String → Option Nat)
    (id u : String) (ts : List String) (n : Nat) (utcnow : Int) : Prop :=
  (∀ anns : List Doc,
     delete_announcement parseOid id (some u) ⟨anns, ts, n⟩
       = .error ⟨400, "Invalid announcement id"⟩)
  ∧ (∀ (anns : List Doc) (m? e? s? : Option String) (u1 u2 u3 : UpdateSet),
       setMessage ⟨utcnow, none, none, none⟩ m? = .ok u1 →
       setStart fromiso u1 s? = .ok u2 →
       setEnd fromiso u2 e? = .ok u3 →
       update_announcement fromiso isoString parseOid id m? e? s? (some u)
           utcnow ⟨anns, ts, n⟩
         = .error ⟨400, "Invalid announcement id"⟩)

/-- C9 (amended): for an update or delete by an authenticated teacher with
a malformed identifier (and, for update, provided fields passing
validation), the operation fails with 400 "Invalid announcement id",
independently of the announcements collection. -/
theorem malformed_id_rejected (fromiso : String → Option Int)
    (isoString : Int → String) (parseOid : String → Option Nat)
    (id u : String) (ts : List String) (n : Nat) (utcnow : Int)
    (hid : parseOid id = none) (h0 : u ≠ "") (h1 : u ∈ ts) :
    MalformedIdSpec fromiso isoString parseOid id u ts n utcnow := by
  constructor
  · intro anns
    have hauth := require_teacher_ok anns ts n u h0 h1
    simp [delete_announcement, hauth, hid]
  · intro anns m? e? s? u1 u2 u3 hm hs he
    have hauth := require_teacher_ok anns ts n u h0 h1
    simp [update_announcement, hauth, hm, hs, he, hid]

theorem malformed_id_rejected_witness :
    (parseOidC "not-an-oid" = none ∧ "jwilson" ≠ ""
      ∧ "jwilson" ∈ ["jwilson"])
    ∧ MalformedIdSpec fromisoC isoStringC parseOidC "not-an-oid" "jwilson"
        ["jwilson"] 0 0 :=
  ⟨⟨by decide, by decide, by decide⟩,
   malformed_id_rejected fromisoC isoStringC parseOidC "not-an-oid"
     "jwilson" ["jwilson"] 0 0 (by decide) (by decide) (by decide)⟩
